import Mathlib

/-!
Shallow embedding of the core of the Earthquake Visualizer repository
(`src/components/MapView.jsx`, with the two earlier `MapView` variants kept in
the repository as unnamed files, here called the "variant").

The embedding models:
* the raw feed events (`RawEvent`) and the JavaScript value of their `mag`
  field, which may be `null` or `undefined` (`JsNum`);
* the magnitude→color derivations used by the map markers and the sidebar
  list entries, exactly as the two conditional chains in the source;
* `mag.toFixed(1)` display formatting, which throws a `TypeError` on
  `null`/`undefined` (modelled as `Except`);
* the fetch logic of `fetchEarthquakes` (loading flag, error message, stable
  descending sort of `data.features` by `properties.time`);
* the component state (`AppState`) and its transitions: fetch/refresh,
  sidebar toggle, and list-item selection, including the reference-identity
  semantics of the `FlyToLocation` effect whose dependency array holds the
  freshly allocated `[lat, lon]` array on every click;
* the three mutually exclusive render modes (`render`, `renderVariant`).
-/

/-- A JavaScript number-typed field that may be `null` or `undefined`
(the USGS feed can deliver `"mag": null`). -/
inductive JsNum where
  | num : ℚ → JsNum
  | null : JsNum
  | undef : JsNum
deriving DecidableEq

/-- JavaScript relational comparison `m >= c` for a magnitude value `m`:
a number compares numerically, `null` is coerced to `0`, and `undefined`
becomes `NaN`, for which every relational comparison is `false`. -/
def jsGE : JsNum → ℚ → Bool
  | .num q, c => decide (c ≤ q)
  | .null, c => decide (c ≤ 0)
  | .undef, _ => false

/-- One feature of the feed: `id`, `geometry.coordinates = [lon, lat, ...]`
and `properties = \x7bmag, place, time\x7d` (epoch milliseconds). -/
structure RawEvent where
  id : String
  lon : ℚ
  lat : ℚ
  mag : JsNum
  place : String
  time : Int
deriving DecidableEq

/-- The severity tier of the spec's `RankedEvent` data model. -/
inductive SeverityTier where
  | minor | light | moderate | severe
deriving DecidableEq

/-- Spec-side definition (for comparison with the code's color chains):
tier from magnitude via the documented thresholds, ≥6.0 severe, ≥4.0
moderate, ≥2.0 light, else minor, with the JS comparison semantics for
null/undefined magnitudes. -/
def severityTier (m : JsNum) : SeverityTier :=
  if jsGE m 6 then .severe
  else if jsGE m 4 then .moderate
  else if jsGE m 2 then .light
  else .minor

/-- Spec-side definition: the display color associated with each tier
(the legend's red / orange / yellow / green buckets). -/
def tierColor : SeverityTier → String
  | .severe => "red"
  | .moderate => "orange"
  | .light => "yellow"
  | .minor => "green"

/-- Marker color chain from the map render:
`mag >= 6 ? "red" : mag >= 4 ? "orange" : mag >= 2 ? "yellow" : "green"`. -/
def markerColor (mag : JsNum) : String :=
  if jsGE mag 6 then "red"
  else if jsGE mag 4 then "orange"
  else if jsGE mag 2 then "yellow"
  else "green"

/-- List-entry text color chain from the sidebar render:
`mag >= 6 ? "text-red-600" : mag >= 4 ? "text-orange-500" : "text-green-600"`.
Note the source has no `mag >= 2` branch here. -/
def listColor (mag : JsNum) : String :=
  if jsGE mag 6 then "text-red-600"
  else if jsGE mag 4 then "text-orange-500"
  else "text-green-600"

/-- Render a rational to one decimal place, the successful outcome of
JavaScript `x.toFixed(1)` on an actual number. -/
def ratToFixed1 (q : ℚ) : String :=
  let n : Int := round (q * 10)
  let sign := if n < 0 then "-" else ""
  sign ++ toString (n.natAbs / 10) ++ "." ++ toString (n.natAbs % 10)

/-- JavaScript member call `mag.toFixed(1)`: on a number it yields the
formatted string, on `null` or `undefined` the member access itself throws
a `TypeError`. -/
def jsToFixed1 : JsNum → Except String String
  | .num q => .ok (ratToFixed1 q)
  | .null => .error "TypeError"
  | .undef => .error "TypeError"

/-- Comparator passed to `sort`: `(a, b) => b.properties.time - a.properties.time`. -/
def timeCmp (a b : RawEvent) : Int := b.time - a.time

/-- The "less-or-equal" predicate induced by the comparator: in a stable
ECMAScript `Array.prototype.sort`, `a` may stay before `b` exactly when the
comparator does not return a positive number. -/
def timeLe (a b : RawEvent) : Bool := decide (timeCmp a b ≤ 0)

/-- `data.features.sort((a, b) => b.properties.time - a.properties.time)`:
ECMAScript `sort` is required to be stable, so it is a stable merge sort
with respect to `timeLe`. -/
def sortDesc (l : List RawEvent) : List RawEvent := l.mergeSort timeLe

/-- `collection.slice(0, n)`: the non-mutating prefix view used as
`earthquakes.slice(0, 10)` for the sidebar list. -/
def topN (l : List α) (n : Nat) : List α := l.take n

/-- Latitude/longitude pair as passed to `setSelectedCoords([lat, lon])`
and to `map.flyTo`. -/
structure Coords where
  lat : ℚ
  lon : ℚ
deriving DecidableEq

/-- A JS array value `[lat, lon]` together with its object identity:
every evaluation of the literal allocates a fresh reference, which is what
the `useEffect` dependency comparison (`Object.is`) looks at. -/
structure RefArr where
  refId : Nat
  val : Coords
deriving DecidableEq

/-- The result of one run of the body of `fetchEarthquakes`:
the transport may fail, the response status may be not-ok, `res.json()` may
reject, or everything succeeds with a parsed `features` list. -/
inductive FetchResult where
  | netFail
  | notOk
  | badJson
  | ok (features : List RawEvent)
deriving DecidableEq

/-- Whether the fetch attempt reached the success path. -/
def isOkR : FetchResult → Bool
  | .ok _ => true
  | _ => false

/-- The message installed by the `catch` branch of `fetchEarthquakes`. -/
def fetchErrorMsg : String := "⚠️ Failed to fetch earthquake data."

/-- The state held by the `MapView` component (the five `useState` slots)
together with the bookkeeping of the `FlyToLocation` effect: `prevDep` is
the dependency value seen at the effect's last run (`none` before the first
run) and `flights` records the `map.flyTo` calls issued so far. -/
structure AppState where
  earthquakes : List RawEvent
  loading : Bool
  error : String
  selectedCoords : Option RefArr
  sidebarOpen : Bool
  nextRef : Nat
  prevDep : Option (Option RefArr)
  flights : List Coords
deriving DecidableEq

/-- Initial values of the `useState` hooks. -/
def initState : AppState :=
  { earthquakes := []
    loading := true
    error := ""
    selectedCoords := none
    sidebarOpen := false
    nextRef := 0
    prevDep := none
    flights := [] }

/-- `Object.is`-based comparison of the `[coordinates]` dependency array
entry between two renders: `null` equals `null`, and two array values are
the same only when they are the same reference. -/
def depEq : Option RefArr → Option RefArr → Bool
  | none, none => true
  | some a, some b => a.refId == b.refId
  | _, _ => false

/-- One render's processing of the `FlyToLocation` effect: the effect
re-runs when the `[coordinates]` dependency changed (or on the first
render), and its body calls `map.flyTo(coordinates, 5, ...)` only when
`coordinates` is non-null. -/
def runFlyEffect (s : AppState) : AppState :=
  let skip := match s.prevDep with
    | some d => depEq s.selectedCoords d
    | none => false
  if skip then s
  else
    let s1 := { s with prevDep := some s.selectedCoords }
    match s1.selectedCoords with
    | some r => { s1 with flights := s1.flights ++ [r.val] }
    | none => s1

/-- `setLoading(true)` at the head of `fetchEarthquakes`: the state while
the request is outstanding. -/
def fetchBegin (s : AppState) : AppState := { s with loading := true }

/-- Completion of `fetchEarthquakes`: on success store the sorted features
and clear the error; every failure (transport, `!res.ok`, `res.json()`
rejection) lands in the same `catch`, which only sets the error message;
`finally` clears the loading flag. -/
def fetchSettle (s : AppState) : FetchResult → AppState
  | .ok feats => { s with earthquakes := sortDesc feats, error := "", loading := false }
  | .netFail => { s with error := fetchErrorMsg, loading := false }
  | .notOk => { s with error := fetchErrorMsg, loading := false }
  | .badJson => { s with error := fetchErrorMsg, loading := false }

/-- User-visible actions of the mounted view: a fetch/refresh/retry round
trip with its result, the sidebar toggle button, and clicking a list item
(which selects that event's `[lat, lon]`). -/
inductive UiAction where
  | fetch (r : FetchResult)
  | toggleSidebar
  | select (c : Coords)
deriving DecidableEq

/-- Whether an action is a list selection. -/
def isSelectA : UiAction → Bool
  | .select _ => true
  | _ => false

/-- One step of the view: apply the state updates of the action's handler,
then let the re-render run the `FlyToLocation` effect. A selection executes
`setSelectedCoords([lat, lon])` with a freshly allocated array and
`setSidebarOpen(false)` — the primary `MapView.jsx` collapses the sidebar
unconditionally. -/
def step (s : AppState) : UiAction → AppState
  | .fetch r => runFlyEffect (fetchSettle (fetchBegin s) r)
  | .toggleSidebar => runFlyEffect { s with sidebarOpen := !s.sidebarOpen }
  | .select c =>
      runFlyEffect { s with
        selectedCoords := some ⟨s.nextRef, c⟩
        nextRef := s.nextRef + 1
        sidebarOpen := false }

/-- The list-item click handler of the variant `MapView`, which guards the
collapse with `if (window.innerWidth < 768) setSidebarOpen(false)`. -/
def selectClickResponsive (width : Nat) (s : AppState) (c : Coords) : AppState :=
  runFlyEffect { s with
    selectedCoords := some ⟨s.nextRef, c⟩
    nextRef := s.nextRef + 1
    sidebarOpen := if width < 768 then false else s.sidebarOpen }

/-- The mutually exclusive view modes the component can return. -/
inductive View where
  | loadingView
  | errorView (msg : String)
  | noDataView (msg : String)
  | mainView (listEntries : List RawEvent) (markers : List RawEvent)
deriving DecidableEq

/-- Render of the primary `MapView.jsx`: `if (loading) ...`, then
`if (error) ...` with the retry button, else the main layout whose sidebar
list shows `earthquakes.slice(0, 10)` and whose map renders a marker per
element of `earthquakes`. -/
def render (s : AppState) : View :=
  if s.loading then .loadingView
  else if s.error ≠ "" then .errorView s.error
  else .mainView (topN s.earthquakes 10) s.earthquakes

/-- Render of the variant `MapView`, which inserts
`if (!earthquakes.length) return <p>No earthquake data found.</p>`
between the error branch and the main layout. -/
def renderVariant (s : AppState) : View :=
  if s.loading then .loadingView
  else if s.error ≠ "" then .errorView s.error
  else if s.earthquakes.length = 0 then .noDataView "No earthquake data found."
  else .mainView (topN s.earthquakes 10) s.earthquakes

/-- `MapContainer center=\x7b[20, 0]\x7d`. -/
def worldCenter : Coords := ⟨20, 0⟩

/-- `MapContainer zoom=\x7b2\x7d`. -/
def defaultZoom : Nat := 2

/-- `map.flyTo(coordinates, 5, ...)` zoom target. -/
def flyToZoom : Nat := 5

/-- The map camera's center: the target of the last `flyTo` call, or the
default world-view center when none has been issued. -/
def cameraCenter (s : AppState) : Coords :=
  (s.flights.getLast?).getD worldCenter

/-- The map camera's zoom: the `flyTo` zoom after any animation, else the
initial zoom. -/
def cameraZoom (s : AppState) : Nat :=
  match s.flights.getLast? with
  | some _ => flyToZoom
  | none => defaultZoom

/-- Bound on the reference id possibly stored in the effect's remembered
dependency; fresh allocations use ids `≥ nextRef`, so this guarantees a
fresh array is never `Object.is`-equal to the remembered one. -/
def refIdLt : Option RefArr → Nat → Bool
  | none, _ => true
  | some r, n => decide (r.refId < n)

/-- Well-formedness of the allocator: the dependency remembered by the
`FlyToLocation` effect (if any) was allocated before `nextRef`. -/
def depBound (s : AppState) : Bool :=
  match s.prevDep with
  | none => true
  | some d => refIdLt d s.nextRef

/-! Helper lemmas shared by several results. -/

/-- The `FlyToLocation` effect only touches its own bookkeeping (`prevDep`,
`flights`); every `useState` slot of the component is untouched. -/
theorem runFlyEffect_frame (s : AppState) :
    (runFlyEffect s).earthquakes = s.earthquakes
    ∧ (runFlyEffect s).loading = s.loading
    ∧ (runFlyEffect s).error = s.error
    ∧ (runFlyEffect s).selectedCoords = s.selectedCoords
    ∧ (runFlyEffect s).sidebarOpen = s.sidebarOpen
    ∧ (runFlyEffect s).nextRef = s.nextRef := by
  unfold runFlyEffect
  dsimp only
  split
  · exact ⟨rfl, rfl, rfl, rfl, rfl, rfl⟩
  · split <;> exact ⟨rfl, rfl, rfl, rfl, rfl, rfl⟩

/-- While no coordinates are selected, the effect body never calls `flyTo`. -/
theorem runFlyEffect_flights_of_none (s : AppState) (h : s.selectedCoords = none) :
    (runFlyEffect s).flights = s.flights := by
  unfold runFlyEffect
  dsimp only
  split
  · rfl
  · rw [h]

/-- A fetch step or a sidebar toggle never touches the selection. -/
theorem step_selectedCoords_of_not_select (s : AppState) (a : UiAction)
    (h : isSelectA a = false) :
    (step s a).selectedCoords = s.selectedCoords := by
  cases a with
  | fetch r =>
      cases r <;>
        simpa [step, fetchSettle, fetchBegin] using
          (runFlyEffect_frame _).2.2.2.1
  | toggleSidebar =>
      simpa [step] using (runFlyEffect_frame _).2.2.2.1
  | select c => simp [isSelectA] at h

/-- A fetch step or a toggle from a state with empty selection keeps the
selection empty and issues no camera animation. -/
theorem step_none_frame (s : AppState) (a : UiAction)
    (ha : isSelectA a = false) (h : s.selectedCoords = none) :
    (step s a).selectedCoords = none ∧ (step s a).flights = s.flights := by
  refine ⟨(step_selectedCoords_of_not_select s a ha).trans h, ?_⟩
  cases a with
  | fetch r =>
      cases r <;>
        simpa [step, fetchSettle, fetchBegin] using
          runFlyEffect_flights_of_none _ (by simpa [fetchSettle, fetchBegin] using h)
  | toggleSidebar =>
      simpa [step] using runFlyEffect_flights_of_none _ (by simpa using h)
  | select c => simp [isSelectA] at ha

/-- Spec-side definition: the list-entry text color as the code actually
derives it from the tier — severe and moderate get their own text colors,
while light and minor are merged into the same green text. -/
def listTierColor : SeverityTier → String
  | .severe => "text-red-600"
  | .moderate => "text-orange-500"
  | .light => "text-green-600"
  | .minor => "text-green-600"

/-- C1: classification of a `null`/`undefined` magnitude is total and lands
in tier minor (green) without any error, but the displayed magnitude text
does not degrade gracefully: `mag.toFixed(1)` throws a `TypeError` on a
non-numeric magnitude, in the list entry and in the marker popup alike. -/
theorem C1_null_mag_classified_minor_but_display_throws (q : ℚ) :
    severityTier JsNum.null = SeverityTier.minor
    ∧ severityTier JsNum.undef = SeverityTier.minor
    ∧ markerColor JsNum.null = "green"
    ∧ listColor JsNum.null = "text-green-600"
    ∧ jsToFixed1 JsNum.null = Except.error "TypeError"
    ∧ jsToFixed1 JsNum.undef = Except.error "TypeError"
    ∧ jsToFixed1 (JsNum.num q) = Except.ok (ratToFixed1 q) := by
  refine ⟨by decide, by decide, by decide, by decide, rfl, rfl, rfl⟩

/-- C2 counterexample: a magnitude of 3.0 is tier light, whose display
color by the threshold table is yellow, yet the sidebar list colors it with
the very same green as the minor-tier magnitude 1.0 — the list-entry color
chain has no 2.0 threshold, so the tiers do not partition at 2.0 in every
place a color is derived. -/
theorem C2_list_color_misses_light_threshold :
    severityTier (JsNum.num 3) = SeverityTier.light
    ∧ tierColor (severityTier (JsNum.num 3)) = "yellow"
    ∧ listColor (JsNum.num 3) = "text-green-600"
    ∧ listColor (JsNum.num 3) = listColor (JsNum.num 1)
    ∧ severityTier (JsNum.num 3) ≠ severityTier (JsNum.num 1)
    ∧ markerColor (JsNum.num 3) ≠ markerColor (JsNum.num 1) := by
  decide

/-- C2 (amended): map marker colors follow the full four-tier partition of
magnitudes at the 6.0 / 4.0 / 2.0 thresholds exactly; the list-entry text
colors use only the 6.0 and 4.0 thresholds, merging the light tier into
the minor tier's green. -/
theorem C2_marker_partition_and_list_merge (m : JsNum) (q : ℚ) :
    markerColor m = tierColor (severityTier m)
    ∧ listColor m = listTierColor (severityTier m)
    ∧ (severityTier (JsNum.num q) = SeverityTier.severe ↔ 6 ≤ q)
    ∧ (severityTier (JsNum.num q) = SeverityTier.moderate ↔ 4 ≤ q ∧ q < 6)
    ∧ (severityTier (JsNum.num q) = SeverityTier.light ↔ 2 ≤ q ∧ q < 4)
    ∧ (severityTier (JsNum.num q) = SeverityTier.minor ↔ q < 2) := by
  constructor
  · cases h6 : jsGE m 6 <;> cases h4 : jsGE m 4 <;> cases h2 : jsGE m 2 <;>
      simp [markerColor, severityTier, tierColor, h6, h4, h2]
  constructor
  · cases h6 : jsGE m 6 <;> cases h4 : jsGE m 4 <;> cases h2 : jsGE m 2 <;>
      simp [listColor, severityTier, listTierColor, h6, h4, h2]
  have h6 : jsGE (JsNum.num q) 6 = decide (6 ≤ q) := rfl
  have h4 : jsGE (JsNum.num q) 4 = decide (4 ≤ q) := rfl
  have h2 : jsGE (JsNum.num q) 2 = decide (2 ≤ q) := rfl
  by_cases c6 : (6:ℚ) ≤ q <;> by_cases c4 : (4:ℚ) ≤ q <;> by_cases c2 : (2:ℚ) ≤ q <;>
    simp [severityTier, h6, h4, h2, c6, c4, c2] <;>
    linarith

/-- Witness for the amended C2 statement at magnitude 5.0. -/
theorem C2_marker_partition_and_list_merge_witness :
    markerColor (JsNum.num 5) = tierColor (severityTier (JsNum.num 5))
    ∧ severityTier (JsNum.num 5) = SeverityTier.moderate :=
  ⟨(C2_marker_partition_and_list_merge (JsNum.num 5) 5).1,
   ((C2_marker_partition_and_list_merge (JsNum.num 5) 5).2.2.2.1).mpr (by norm_num)⟩

/-- The comparator-induced order is transitive. -/
theorem timeLe_trans (a b c : RawEvent) (h1 : timeLe a b) (h2 : timeLe b c) :
    timeLe a c := by
  simp only [timeLe, timeCmp, decide_eq_true_eq] at h1 h2 ⊢
  omega

/-- The comparator-induced order is total. -/
theorem timeLe_total (a b : RawEvent) : timeLe a b || timeLe b a := by
  simp only [timeLe, timeCmp, Bool.or_eq_true, decide_eq_true_eq]
  omega

/-- C3: a successful fetch stores the features sorted descending by
timestamp, as a permutation of the input, and the sort is stable: for every
timestamp the events carrying it appear in the same relative order as in
the input feed. -/
theorem C3_sorted_descending_stable (feats : List RawEvent) :
    (sortDesc feats).Pairwise (fun a b => b.time ≤ a.time)
    ∧ List.Perm (sortDesc feats) feats
    ∧ ∀ t : Int, (sortDesc feats).filter (fun e => e.time == t)
        = feats.filter (fun e => e.time == t) := by
  refine ⟨?_, List.mergeSort_perm feats timeLe, ?_⟩
  · exact (List.sorted_mergeSort timeLe_trans timeLe_total feats).imp
      (by intro a b hab; simpa [timeLe, timeCmp] using hab)
  · intro t
    have hself : (feats.filter (fun e => e.time == t)).filter (fun e => e.time == t)
        = feats.filter (fun e => e.time == t) :=
      List.filter_eq_self.mpr (fun a ha => (List.mem_filter.mp ha).2)
    have hsub : List.Sublist (feats.filter (fun e => e.time == t)) (sortDesc feats) := by
      apply List.sublist_mergeSort timeLe_trans timeLe_total
      · apply List.pairwise_of_forall_mem_list
        intro a ha b hb
        have ha' : a.time = t := by simpa using (List.mem_filter.mp ha).2
        have hb' : b.time = t := by simpa using (List.mem_filter.mp hb).2
        simp [timeLe, timeCmp, ha', hb']
      · exact List.filter_sublist feats
    have h1 : List.Sublist (feats.filter (fun e => e.time == t))
        ((sortDesc feats).filter (fun e => e.time == t)) := by
      have := hsub.filter (fun e => e.time == t)
      rwa [hself] at this
    have hlen : ((sortDesc feats).filter (fun e => e.time == t)).length
        = (feats.filter (fun e => e.time == t)).length :=
      ((List.mergeSort_perm feats timeLe).filter (fun e => e.time == t)).length_eq
    exact (h1.eq_of_length hlen.symm).symm

/-- A concrete ready state with zero events: the initial hook values after
a successful fetch of an empty `features` collection. -/
def emptyReady : AppState := { initState with loading := false }

/-- A concrete state whose sidebar is expanded while the view is ready. -/
def sOpenWide : AppState := { initState with loading := false, sidebarOpen := true }

/-- C4: `topN` returns exactly `min n (length)` elements forming the prefix
of the full sorted ordering (the dropped suffix witnesses this), and in the
ready render the list panel is bound to the first 10 events while the map
renders the full collection; as a pure function it cannot mutate its input. -/
theorem C4_topN_bound (l : List RawEvent) (n : Nat) (s : AppState)
    (hl : s.loading = false) (he : s.error = "") :
    (topN l n).length = min n l.length
    ∧ topN l n ++ l.drop n = l
    ∧ render s = View.mainView (topN s.earthquakes 10) s.earthquakes := by
  refine ⟨List.length_take n l, List.take_append_drop n l, ?_⟩
  simp [render, hl, he]

/-- Witness for C4 at the empty ready state and a two-element list. -/
theorem C4_topN_bound_witness :
    (topN ([] : List RawEvent) 10).length = min 10 ([] : List RawEvent).length
    ∧ topN ([] : List RawEvent) 10 ++ ([] : List RawEvent).drop 10 = []
    ∧ render emptyReady = View.mainView (topN emptyReady.earthquakes 10) emptyReady.earthquakes :=
  C4_topN_bound [] 10 emptyReady rfl rfl

/-- C5 counterexample: the primary `MapView.jsx` click handler runs
`setSidebarOpen(false)` unconditionally — it never consults the viewport
width — so selecting an event from an expanded sidebar collapses
`SidebarState` on a wide viewport too, where the claim requires the state
to stay unchanged. -/
theorem C5_select_collapses_on_any_viewport :
    sOpenWide.sidebarOpen = true
    ∧ (step sOpenWide (.select ⟨10, 20⟩)).sidebarOpen = false := by
  constructor
  · rfl
  · simp [step, sOpenWide, initState, runFlyEffect,
      (runFlyEffect_frame _).2.2.2.2.1]

/-- C5 (amended): in the primary `MapView.jsx`, a list selection always
sets `SidebarState` to collapsed, for every viewport width (the handler
takes no width into account; the panel merely stays visible on wide
viewports through static CSS). The claimed viewport-conditional behavior is
the one implemented by the variant handler: it collapses exactly when the
width is below the 768 px breakpoint and leaves the state unchanged on wide
viewports. -/
theorem C5_collapse_semantics (s : AppState) (c : Coords) (w : Nat) :
    (step s (.select c)).sidebarOpen = false
    ∧ (w < 768 → (selectClickResponsive w s c).sidebarOpen = false)
    ∧ (768 ≤ w → (selectClickResponsive w s c).sidebarOpen = s.sidebarOpen) := by
  refine ⟨?_, ?_, ?_⟩
  · simpa [step] using (runFlyEffect_frame _).2.2.2.2.1
  · intro hw
    simpa [selectClickResponsive, hw] using (runFlyEffect_frame _).2.2.2.2.1
  · intro hw
    have hw' : ¬ w < 768 := by omega
    simpa [selectClickResponsive, hw'] using (runFlyEffect_frame _).2.2.2.2.1

/-- Witness for the amended C5 at a wide (1024 px) and a narrow (360 px)
viewport. -/
theorem C5_collapse_semantics_witness :
    (step sOpenWide (.select ⟨5, 6⟩)).sidebarOpen = false
    ∧ (selectClickResponsive 360 sOpenWide ⟨5, 6⟩).sidebarOpen = false
    ∧ (selectClickResponsive 1024 sOpenWide ⟨5, 6⟩).sidebarOpen = sOpenWide.sidebarOpen :=
  ⟨(C5_collapse_semantics sOpenWide ⟨5, 6⟩ 1024).1,
   (C5_collapse_semantics sOpenWide ⟨5, 6⟩ 360).2.1 (by omega),
   (C5_collapse_semantics sOpenWide ⟨5, 6⟩ 1024).2.2 (by omega)⟩

/-- A selection step from a state whose remembered effect dependency is
older than the allocator counter: the freshly allocated `[lat, lon]` array
can never be reference-equal to the remembered dependency, so the effect
re-runs and issues exactly one `flyTo`. -/
theorem step_select_run (s : AppState) (h : depBound s = true) (c : Coords) :
    step s (.select c) = { s with
      selectedCoords := some ⟨s.nextRef, c⟩
      nextRef := s.nextRef + 1
      sidebarOpen := false
      prevDep := some (some ⟨s.nextRef, c⟩)
      flights := s.flights ++ [c] } := by
  unfold step runFlyEffect
  dsimp only
  cases hd : s.prevDep with
  | none => simp
  | some d =>
    cases d with
    | none => simp [depEq]
    | some r =>
      have hlt : r.refId < s.nextRef := by
        simpa [depBound, hd, refIdLt] using h
      have hne : (s.nextRef == r.refId) = false := by
        simp
        omega
      simp [depEq, hne]

/-- The allocator invariant survives a selection step. -/
theorem depBound_step_select (s : AppState) (h : depBound s = true) (c : Coords) :
    depBound (step s (.select c)) = true := by
  rw [step_select_run s h c]
  simp [depBound, refIdLt]

/-- C6: from any reachable state, one selection produces exactly one
selection update (the clicked coordinates) and exactly one `flyTo`
trigger; selecting the same coordinates again immediately produces exactly
one further update and one further trigger — the freshly allocated
dependency array defeats any deduplication. -/
theorem C6_reselect_retriggers (s : AppState) (h : depBound s = true) (c : Coords) :
    (step s (.select c)).selectedCoords = some ⟨s.nextRef, c⟩
    ∧ (step s (.select c)).flights = s.flights ++ [c]
    ∧ (step (step s (.select c)) (.select c)).selectedCoords = some ⟨s.nextRef + 1, c⟩
    ∧ (step (step s (.select c)) (.select c)).flights = s.flights ++ [c, c] := by
  have h1 := step_select_run s h c
  have h2 := step_select_run _ (depBound_step_select s h c) c
  refine ⟨by rw [h1], by rw [h1], ?_, ?_⟩
  · rw [h2, h1]
  · rw [h2, h1]
    simp

/-- Witness for C6 at the initial state. -/
theorem C6_reselect_retriggers_witness :
    (step initState (.select ⟨10, 20⟩)).selectedCoords = some ⟨initState.nextRef, ⟨10, 20⟩⟩
    ∧ (step initState (.select ⟨10, 20⟩)).flights = initState.flights ++ [⟨10, 20⟩]
    ∧ (step (step initState (.select ⟨10, 20⟩)) (.select ⟨10, 20⟩)).selectedCoords
        = some ⟨initState.nextRef + 1, ⟨10, 20⟩⟩
    ∧ (step (step initState (.select ⟨10, 20⟩)) (.select ⟨10, 20⟩)).flights
        = initState.flights ++ [⟨10, 20⟩, ⟨10, 20⟩] :=
  C6_reselect_retriggers initState rfl ⟨10, 20⟩

/-- A failing fetch (transport error, non-2xx status, or undecodable
payload) reduces to the single `catch` branch: message set, loading
cleared, everything else untouched before the re-render effect. -/
theorem step_fetch_fail_eq (s : AppState) (r : FetchResult) (hr : isOkR r = false) :
    step s (.fetch r) = runFlyEffect { s with error := fetchErrorMsg, loading := false } := by
  cases r <;> simp_all [isOkR, step, fetchSettle, fetchBegin]

/-- A successful fetch stores the sorted features and clears the message. -/
theorem step_fetch_ok_eq (s : AppState) (feats : List RawEvent) :
    step s (.fetch (.ok feats)) = runFlyEffect
      { s with earthquakes := sortDesc feats, error := "", loading := false } := by
  simp [step, fetchSettle, fetchBegin]

/-- C7: after a failing feed request the view is in the failed mode with
the generic failure message; the retry action re-issues the request,
passing back through the loading mode; when the retried request succeeds
the view is ready with the newly sorted data and the prior failure message
is discarded. -/
theorem C7_fail_retry_success (s : AppState) (r : FetchResult) (hr : isOkR r = false)
    (feats : List RawEvent) :
    render (step s (.fetch r)) = View.errorView fetchErrorMsg
    ∧ render (fetchBegin (step s (.fetch r))) = View.loadingView
    ∧ (step (step s (.fetch r)) (.fetch (.ok feats))).error = ""
    ∧ (step (step s (.fetch r)) (.fetch (.ok feats))).earthquakes = sortDesc feats
    ∧ (step (step s (.fetch r)) (.fetch (.ok feats))).loading = false
    ∧ render (step (step s (.fetch r)) (.fetch (.ok feats)))
        = View.mainView (topN (sortDesc feats) 10) (sortDesc feats) := by
  have hfail := step_fetch_fail_eq s r hr
  have hok := step_fetch_ok_eq (step s (.fetch r)) feats
  have hmsg : fetchErrorMsg ≠ "" := by decide
  have hframe1 := runFlyEffect_frame { s with error := fetchErrorMsg, loading := false }
  have hframe2 := runFlyEffect_frame
    { (step s (.fetch r)) with earthquakes := sortDesc feats, error := "", loading := false }
  refine ⟨?_, ?_, ?_, ?_, ?_, ?_⟩
  · rw [hfail]
    simp [render, hframe1.2.1, hframe1.2.2.1, hmsg]
  · rw [hfail]
    simp [render, fetchBegin]
  · rw [hok]
    exact hframe2.2.2.1
  · rw [hok]
    exact hframe2.1
  · rw [hok]
    exact hframe2.2.1
  · rw [hok]
    simp [render, hframe2.2.1, hframe2.2.2.1, hframe2.1]

/-- Witness for C7: a not-ok status, then a successful retry with one event. -/
theorem C7_fail_retry_success_witness :
    render (step initState (.fetch .notOk)) = View.errorView fetchErrorMsg
    ∧ render (fetchBegin (step initState (.fetch .notOk))) = View.loadingView
    ∧ (step (step initState (.fetch .notOk)) (.fetch (.ok []))).error = ""
    ∧ (step (step initState (.fetch .notOk)) (.fetch (.ok []))).earthquakes = sortDesc []
    ∧ (step (step initState (.fetch .notOk)) (.fetch (.ok []))).loading = false
    ∧ render (step (step initState (.fetch .notOk)) (.fetch (.ok [])))
        = View.mainView (topN (sortDesc []) 10) (sortDesc []) :=
  C7_fail_retry_success initState .notOk rfl []

/-- C8 counterexample: at the concrete ready state with zero events the
primary `MapView.jsx` renders the ordinary main layout whose list area is
an empty list and whose map has no markers — there is no "no data" notice
branch in this file (only the variant `MapView` has one). -/
theorem C8_empty_ready_lacks_notice :
    render emptyReady = View.mainView [] []
    ∧ render emptyReady ≠ View.noDataView "No earthquake data found." := by
  constructor
  · simp [render, emptyReady, initState, topN]
  · simp [render, emptyReady, initState, topN]

/-- C8 (amended): a successful fetch of zero events leaves the view ready;
the primary `MapView.jsx` renders the main layout with an empty list (no
explicit notice) and a map with no markers, while the variant `MapView`
short-circuits to a standalone "No earthquake data found." notice and
renders neither the list nor the map. -/
theorem C8_empty_ready_rendering (s : AppState) (hl : s.loading = false)
    (he : s.error = "") (hq : s.earthquakes = []) :
    render s = View.mainView [] []
    ∧ renderVariant s = View.noDataView "No earthquake data found." := by
  constructor <;> simp [render, renderVariant, hl, he, hq, topN]

/-- Witness for the amended C8 at the concrete empty ready state. -/
theorem C8_empty_ready_rendering_witness :
    render emptyReady = View.mainView [] []
    ∧ renderVariant emptyReady = View.noDataView "No earthquake data found." :=
  C8_empty_ready_rendering emptyReady rfl rfl rfl

/-- Folding any sequence of non-selection actions over a state with no
selection keeps the selection empty and issues no camera animation. -/
theorem foldl_no_select_none (acts : List UiAction) :
    ∀ s : AppState, (∀ a ∈ acts, isSelectA a = false) → s.selectedCoords = none →
    (acts.foldl step s).selectedCoords = none
    ∧ (acts.foldl step s).flights = s.flights := by
  induction acts with
  | nil => exact fun s _ hs => ⟨hs, rfl⟩
  | cons a rest ih =>
    intro s h hs
    have ha : isSelectA a = false := h a (List.mem_cons_self a rest)
    have hstep := step_none_frame s a ha hs
    have hrest := ih (step s a) (fun b hb => h b (List.mem_cons_of_mem a hb)) hstep.1
    exact ⟨hrest.1, hrest.2.trans hstep.2⟩

/-- C9: the selection starts empty; refreshes (successful or failed) and
sidebar toggles never clear it; only a selection replaces it (always with
concrete coordinates, never with none); and along any interaction history
without a selection, no camera animation has been issued and the map is
still at the default world-view center and zoom. -/
theorem C9_selection_lifecycle (acts : List UiAction)
    (h : ∀ a ∈ acts, isSelectA a = false) :
    initState.selectedCoords = none
    ∧ (∀ (s : AppState) (a : UiAction), isSelectA a = false →
        (step s a).selectedCoords = s.selectedCoords)
    ∧ (∀ (s : AppState) (c : Coords),
        (step s (.select c)).selectedCoords = some ⟨s.nextRef, c⟩)
    ∧ (acts.foldl step initState).selectedCoords = none
    ∧ (acts.foldl step initState).flights = []
    ∧ cameraCenter (acts.foldl step initState) = worldCenter
    ∧ cameraZoom (acts.foldl step initState) = defaultZoom := by
  have hmain := foldl_no_select_none acts initState h rfl
  have hfl : (acts.foldl step initState).flights = [] := hmain.2
  refine ⟨rfl, step_selectedCoords_of_not_select, ?_, hmain.1, hfl, ?_, ?_⟩
  · intro s c
    simpa [step] using (runFlyEffect_frame _).2.2.2.1
  · simp [cameraCenter, hfl]
  · simp [cameraZoom, hfl]

/-- Witness for C9 along a failed refresh, a toggle and a successful
refresh. -/
theorem C9_selection_lifecycle_witness :
    initState.selectedCoords = none
    ∧ (([UiAction.fetch .netFail, UiAction.toggleSidebar,
          UiAction.fetch (.ok [])].foldl step initState).selectedCoords = none)
    ∧ (([UiAction.fetch .netFail, UiAction.toggleSidebar,
          UiAction.fetch (.ok [])].foldl step initState).flights = [])
    ∧ cameraCenter ([UiAction.fetch .netFail, UiAction.toggleSidebar,
          UiAction.fetch (.ok [])].foldl step initState) = worldCenter
    ∧ cameraZoom ([UiAction.fetch .netFail, UiAction.toggleSidebar,
          UiAction.fetch (.ok [])].foldl step initState) = defaultZoom := by
  have h := C9_selection_lifecycle
    [UiAction.fetch .netFail, UiAction.toggleSidebar, UiAction.fetch (.ok [])]
    (by decide)
  exact ⟨h.1, h.2.2.2.1, h.2.2.2.2.1, h.2.2.2.2.2.1, h.2.2.2.2.2.2⟩

/-- C10: a fetch that fails in any of the three ways leaves the stored
earthquake collection — and the selection, the sidebar state and the
allocator — unchanged; only the error message and the loading flag are
written, so the data of the last successful fetch survives a failed
refresh. -/
theorem C10_failed_fetch_preserves_data (s : AppState) (r : FetchResult)
    (hr : isOkR r = false) :
    (step s (.fetch r)).earthquakes = s.earthquakes
    ∧ (step s (.fetch r)).selectedCoords = s.selectedCoords
    ∧ (step s (.fetch r)).sidebarOpen = s.sidebarOpen
    ∧ (step s (.fetch r)).nextRef = s.nextRef
    ∧ (step s (.fetch r)).error = fetchErrorMsg
    ∧ (step s (.fetch r)).loading = false := by
  rw [step_fetch_fail_eq s r hr]
  have hframe := runFlyEffect_frame { s with error := fetchErrorMsg, loading := false }
  exact ⟨hframe.1, hframe.2.2.2.1, hframe.2.2.2.2.1, hframe.2.2.2.2.2,
    hframe.2.2.1, hframe.2.1⟩

/-- Witness for C10 at the initial state and a transport failure. -/
theorem C10_failed_fetch_preserves_data_witness :
    (step initState (.fetch .netFail)).earthquakes = initState.earthquakes
    ∧ (step initState (.fetch .netFail)).selectedCoords = initState.selectedCoords
    ∧ (step initState (.fetch .netFail)).sidebarOpen = initState.sidebarOpen
    ∧ (step initState (.fetch .netFail)).nextRef = initState.nextRef
    ∧ (step initState (.fetch .netFail)).error = fetchErrorMsg
    ∧ (step initState (.fetch .netFail)).loading = false :=
  C10_failed_fetch_preserves_data initState .netFail rfl
